import Mathlib

/-!
A shallow embedding of the query-resolution and matcher facade of the
capybara.py fragment: the exception hierarchy of src/capybara/exceptions.py
and the matcher methods of src/capybara/node/matchers.py, together with
spec-modelled collaborators (SelectorQuery, TextQuery, the synchronization
engine and the driver scope) that the fragment references but whose source
is not included.
-/

namespace Capybara

/-- The exception classes of src/capybara/exceptions.py, plus OtherError
standing for any Python exception outside the CapybaraError hierarchy
(for example a TypeError raised while building a query from malformed
arguments). -/
inductive ExcClass
  | CapybaraError
  | ElementNotFound
  | ModalNotFound
  | Ambiguous
  | ExpectationNotMet
  | FileNotFound
  | UnselectNotAllowed
  | ScopeError
  | WindowError
  | OtherError
deriving DecidableEq, Repr

/-- The direct base class of each exception class, exactly as declared in
src/capybara/exceptions.py (CapybaraError extends the external Exception,
modelled as having no base here). -/
def ExcClass.base : ExcClass → Option ExcClass
  | .CapybaraError => none
  | .ElementNotFound => some .CapybaraError
  | .ModalNotFound => some .CapybaraError
  | .Ambiguous => some .ElementNotFound
  | .ExpectationNotMet => some .ElementNotFound
  | .FileNotFound => some .CapybaraError
  | .UnselectNotAllowed => some .CapybaraError
  | .ScopeError => some .CapybaraError
  | .WindowError => some .CapybaraError
  | .OtherError => none

/-- Python subclass test (as used by an `except C` clause): reflexive and
transitive closure of `base`; the hierarchy has depth at most two, so two
unrollings suffice. -/
def ExcClass.isSubclassOf (c p : ExcClass) : Bool :=
  c == p ||
    match c.base with
    | none => false
    | some b =>
      b == p ||
        match b.base with
        | none => false
        | some b2 => b2 == p

/-- A raised exception: its class and its message string. -/
structure Exc where
  cls : ExcClass
  msg : String
deriving DecidableEq, Repr

/-- An opaque element handle as returned by the driver, with the per-element
capabilities the filters consult (tag, id, text, visibility). -/
structure Element where
  tag : String
  id : String
  text : String
  visible : Bool
deriving DecidableEq, Repr

/-- Modelled from the spec: a Result Set holds the elements matched by one
resolution attempt together with its human-readable failure message, a
deterministic function of the specification and the observed count (the
Result class is not under src/). -/
structure Result where
  elements : List Element
  failure_message : String
deriving DecidableEq, Repr

/-- Modelled from the spec: the Scope / node collaborator, exposing the
driver lookup capability, the text capability, and the synchronization
wait budget.  Both capabilities are indexed by the attempt number (each
synchronization attempt reads a fresh document snapshot) and may raise. -/
structure Scope where
  find_all : String → String → Nat → Except Exc (List Element)
  text : Nat → Except Exc String
  wait : Nat

end Capybara

namespace Capybara

/-- Positional and keyword arguments passed to a selector matcher. -/
structure SelectorArgs where
  args : List String
  kwargs : List (String × String)
deriving DecidableEq, Repr

/-- Modelled from the spec: an immutable Selector Specification (kind,
locator, filters); the SelectorQuery class is not under src/. -/
structure SelectorQuery where
  kind : String
  locator : String
  filters : List (String × String)
deriving DecidableEq, Repr

/-- Modelled from the spec: construction of a SelectorQuery from the
positional and keyword arguments (the SelectorQuery class is not under
src/).  A single positional argument is a locator with the default kind;
two are kind and locator; any other argument list raises an ordinary
(non-Capybara) error before any resolution begins. -/
def SelectorQuery.init (a : SelectorArgs) : Except Exc SelectorQuery :=
  match a.args with
  | [locator] => .ok ⟨"css", locator, a.kwargs⟩
  | [kind, locator] => .ok ⟨kind, locator, a.kwargs⟩
  | _ => .error ⟨.OtherError, "invalid selector arguments"⟩

/-- Modelled from the spec: a per-element filter predicate, pure and opaque
to the engine beyond its boolean outcome. -/
def apply_filter (name value : String) (e : Element) : Bool :=
  if name = "text" then e.text == value
  else if name = "id" then e.id == value
  else if name = "visible" then e.visible == (value == "true")
  else true

/-- Whether an element satisfies every filter of the specification. -/
def SelectorQuery.keeps (q : SelectorQuery) (e : Element) : Bool :=
  q.filters.all fun f => apply_filter f.1 f.2 e

/-- Modelled from the spec: the Result Set failure message, a deterministic
function of the specification and observed count that names the selector
kind and the locator text. -/
def selector_failure_message (kind locator : String) (found : Nat) : String :=
  "expected to find element matching " ++ kind ++ " \x22" ++ locator ++
    "\x22, found " ++ toString found

/-- Modelled from the spec: SelectorQuery.resolve_for issues the raw lookup
for kind and locator against the scope, keeps the candidates satisfying
all filters, and returns a Result Set over them; the count decision is the
caller's, and a driver failure propagates. -/
def SelectorQuery.resolve_for (q : SelectorQuery) (scope : Scope) (n : Nat) :
    Except Exc Result :=
  match scope.find_all q.kind q.locator n with
  | .error e => .error e
  | .ok candidates =>
    let kept := candidates.filter q.keeps
    .ok ⟨kept, selector_failure_message q.kind q.locator kept.length⟩

/-- Positional arguments and the exactness option passed to a text matcher. -/
structure TextArgs where
  args : List String
  exact : Bool
deriving DecidableEq, Repr

/-- Modelled from the spec: an immutable Text Specification (expected text
and normalization mode); the TextQuery class is not under src/. -/
structure TextQuery where
  expected : String
  exact : Bool
deriving DecidableEq, Repr

/-- Modelled from the spec: construction of a TextQuery from the arguments;
a malformed argument list raises an ordinary (non-Capybara) error before
any resolution begins. -/
def TextQuery.init (a : TextArgs) : Except Exc TextQuery :=
  match a.args with
  | [expected] => .ok ⟨expected, a.exact⟩
  | _ => .error ⟨.OtherError, "invalid text arguments"⟩

/-- The maximal whitespace-free words of a character list, in order; `cur`
accumulates the reversed current word and `acc` the reversed word list. -/
def words_aux : List Char → List Char → List (List Char) → List (List Char)
  | [], cur, acc =>
    if cur.isEmpty then acc.reverse else (cur.reverse :: acc).reverse
  | c :: t, cur, acc =>
    if c.isWhitespace then
      if cur.isEmpty then words_aux t [] acc
      else words_aux t [] (cur.reverse :: acc)
    else words_aux t (c :: cur) acc

/-- Modelled from the spec: whitespace normalization, collapsing runs of
whitespace to a single space and trimming the ends. -/
def normalize_ws (s : String) : String :=
  String.mk (List.intercalate [' '] (words_aux s.data [] []))

/-- Whether the second character list is an initial segment of the first. -/
def leads_with : List Char → List Char → Bool
  | _, [] => true
  | [], _ :: _ => false
  | a :: as, b :: bs => a == b && leads_with as bs

/-- Whether the second character list occurs contiguously in the first. -/
def contains_sub : List Char → List Char → Bool
  | [], needle => needle.isEmpty
  | c :: t, needle => leads_with (c :: t) needle || contains_sub t needle

/-- Substring containment, the test the text query applies. -/
def str_contains (hay needle : String) : Bool :=
  contains_sub hay.data needle.data

/-- Modelled from the spec: the Text Query failure message, describing the
expected versus the actual text. -/
def TextQuery.failure_message (q : TextQuery) (actual : String) : String :=
  "expected to find text \x22" ++ q.expected ++ "\x22 in \x22" ++ actual ++ "\x22"

/-- Modelled from the spec: TextQuery.resolve_for fetches the scope's text,
normalizes whitespace in both sides unless exact mode is requested, and
tests containment; the boolean match state is returned together with the
text that was examined (used for the failure message). -/
def TextQuery.resolve_for (q : TextQuery) (scope : Scope) (n : Nat) :
    Except Exc (Bool × String) :=
  match scope.text n with
  | .error e => .error e
  | .ok raw =>
    let actual := if q.exact then raw else normalize_ws raw
    let expected := if q.exact then q.expected else normalize_ws q.expected
    .ok (str_contains actual expected, actual)

/-- Modelled from the spec: the Synchronization Engine.  The probe is
indexed by the attempt number (each attempt reads a fresh snapshot).  A
normal return is passed through at once; a raised condition in the
ElementNotFound family is retried while the budget lasts and the last
observed instance is re-raised unchanged when it runs out; every other
condition propagates immediately.  `wait` counts the remaining retries,
so a zero budget means exactly one attempt. -/
def synchronize {α : Type} (wait : Nat) (probe : Nat → Except Exc α) (n : Nat) :
    Except Exc α :=
  match probe n with
  | .ok v => .ok v
  | .error e =>
    if e.cls.isSubclassOf .ElementNotFound then
      match wait with
      | 0 => .error e
      | w + 1 => synchronize w probe (n + 1)
    else .error e

/-- MatchersMixin.assert_selector: build a SelectorQuery from the arguments,
then, inside the synchronization wrapper, resolve it against the current
node; raise ExpectationNotMet carrying the Result Set's failure message
when the Result Set is empty, and return True otherwise. -/
def assert_selector (self : Scope) (a : SelectorArgs) : Except Exc Bool :=
  match SelectorQuery.init a with
  | .error e => .error e
  | .ok query =>
    synchronize self.wait
      (fun n =>
        match query.resolve_for self n with
        | .error e => .error e
        | .ok result =>
          if result.elements.length = 0 then
            .error ⟨.ExpectationNotMet, result.failure_message⟩
          else
            .ok true)
      0

/-- MatchersMixin.has_selector: call assert_selector, return True on a
normal return, convert a raised ExpectationNotMet (an `except` clause, so
any subclass of it) into False, and let anything else propagate. -/
def has_selector (self : Scope) (a : SelectorArgs) : Except Exc Bool :=
  match assert_selector self a with
  | .ok _ => .ok true
  | .error e =>
    if e.cls.isSubclassOf .ExpectationNotMet then .ok false else .error e

/-- MatchersMixin.has_xpath: delegate to has_selector with kind "xpath". -/
def has_xpath (self : Scope) (query : String) (kwargs : List (String × String)) :
    Except Exc Bool :=
  has_selector self ⟨["xpath", query], kwargs⟩

/-- MatchersMixin.has_css: delegate to has_selector with kind "css". -/
def has_css (self : Scope) (path : String) (kwargs : List (String × String)) :
    Except Exc Bool :=
  has_selector self ⟨["css", path], kwargs⟩

/-- MatchersMixin.has_button: delegate to has_selector with kind "button". -/
def has_button (self : Scope) (locator : String) (kwargs : List (String × String)) :
    Except Exc Bool :=
  has_selector self ⟨["button", locator], kwargs⟩

/-- MatchersMixin.has_link: delegate to has_selector with kind "link". -/
def has_link (self : Scope) (locator : String) (kwargs : List (String × String)) :
    Except Exc Bool :=
  has_selector self ⟨["link", locator], kwargs⟩

/-- MatchersMixin.assert_text: build a TextQuery from the arguments, then,
inside the synchronization wrapper, resolve it against the current node;
raise ExpectationNotMet carrying the query's failure message when the
match state is falsy, and return True otherwise. -/
def assert_text (self : Scope) (a : TextArgs) : Except Exc Bool :=
  match TextQuery.init a with
  | .error e => .error e
  | .ok query =>
    synchronize self.wait
      (fun n =>
        match query.resolve_for self n with
        | .error e => .error e
        | .ok m =>
          if m.1 then .ok true
          else .error ⟨.ExpectationNotMet, query.failure_message m.2⟩)
      0

/-- MatchersMixin.has_text: return the value of assert_text, converting a
raised ExpectationNotMet into False and letting anything else propagate. -/
def has_text (self : Scope) (a : TextArgs) : Except Exc Bool :=
  match assert_text self a with
  | .ok v => .ok v
  | .error e =>
    if e.cls.isSubclassOf .ExpectationNotMet then .ok false else .error e

/-- MatchersMixin.has_content, an alias for has_text. -/
def has_content : Scope → TextArgs → Except Exc Bool := has_text

/-- One string occurs inside another (used to state that a failure message
mentions the selector kind and locator). -/
def mentions (msg part : String) : Prop :=
  ∃ pre post, msg = pre ++ (part ++ post)

/-- Concrete element used by the concrete scenarios: a link with text
"ullamco" and id "foo". -/
def demo_link : Element :=
  ⟨"a", "foo", "ullamco", true⟩

/-- A concrete scope: one link with id "foo"; raw text with a newline run. -/
def demo_scope : Scope where
  find_all := fun kind locator _ =>
    if kind == "link" && locator == "foo" then .ok [demo_link] else .ok []
  text := fun _ => .ok "a \n b"
  wait := 2

/-- A concrete scope whose driver raises the given exception on every lookup
and every text extraction. -/
def failing_scope (e : Exc) : Scope where
  find_all := fun _ _ _ => .error e
  text := fun _ => .error e
  wait := 3

/-- The selector arguments of the concrete scenario: kind "css", locator
"a#bar". -/
def bar_args : SelectorArgs :=
  ⟨["css", "a#bar"], []⟩

/-- String append is associative (stated here so failure-message layouts can
be rearranged). -/
theorem string_append_assoc (a b c : String) : a ++ b ++ c = a ++ (b ++ c) := by
  cases a with
  | mk la =>
    cases b with
    | mk lb =>
      cases c with
      | mk lc =>
        show String.mk (la ++ lb ++ lc) = String.mk (la ++ (lb ++ lc))
        rw [List.append_assoc]

/-- A probe that returns normally is passed through by the synchronization
engine at once. -/
theorem synchronize_ok {α : Type} (w : Nat) (probe : Nat → Except Exc α) (n : Nat)
    (v : α) (h : probe n = Except.ok v) : synchronize w probe n = Except.ok v := by
  unfold synchronize
  rw [h]

/-- A probe failure outside the ElementNotFound family propagates from the
synchronization engine immediately, whatever the remaining budget. -/
theorem synchronize_fatal {α : Type} (w : Nat) (probe : Nat → Except Exc α) (n : Nat)
    (e : Exc) (h : probe n = Except.error e)
    (hf : e.cls.isSubclassOf ExcClass.ElementNotFound = false) :
    synchronize w probe n = Except.error e := by
  unfold synchronize
  simp only [h]
  simp [hf]

/-- A probe that raises the same exception on every attempt makes the
synchronization engine re-raise that exception unchanged. -/
theorem synchronize_const_error {α : Type} (probe : Nat → Except Exc α) (e : Exc)
    (h : ∀ n, probe n = Except.error e) :
    ∀ w n, synchronize w probe n = Except.error e := by
  intro w
  induction w with
  | zero =>
    intro n
    unfold synchronize
    simp only [h n]
    split <;> rfl
  | succ w ih =>
    intro n
    unfold synchronize
    simp only [h n]
    split
    · exact ih (n + 1)
    · rfl

/-- In the hierarchy of src/capybara/exceptions.py, the only subclass of
ExpectationNotMet is ExpectationNotMet itself. -/
theorem subclass_expectation_iff (c : ExcClass) :
    c.isSubclassOf ExcClass.ExpectationNotMet = true ↔
      c = ExcClass.ExpectationNotMet := by
  cases c <;> simp [ExcClass.isSubclassOf, ExcClass.base]

/-- A class outside the ElementNotFound family is also outside the
ExpectationNotMet family. -/
theorem not_elementnotfound_not_expectation (c : ExcClass)
    (h : c.isSubclassOf ExcClass.ElementNotFound = false) :
    c.isSubclassOf ExcClass.ExpectationNotMet = false := by
  revert h
  cases c <;> decide

/-- Claim C1: for every scope and argument list, has_selector returns True
when assert_selector returns normally, returns False exactly when
assert_selector raises an ExpectationNotMet, and lets every other raised
condition (Ambiguous and a bare ElementNotFound included) propagate
unchanged; ExpectationNotMet is the only class converted to a boolean. -/
theorem has_selector_converts_only_expectation (self : Scope) (a : SelectorArgs) :
    (∀ v, assert_selector self a = Except.ok v →
      has_selector self a = Except.ok true) ∧
    (∀ e, assert_selector self a = Except.error e →
      (has_selector self a = Except.ok false ↔
        e.cls = ExcClass.ExpectationNotMet) ∧
      (e.cls ≠ ExcClass.ExpectationNotMet →
        has_selector self a = Except.error e)) := by
  constructor
  · intro v h
    unfold has_selector
    simp only [h]
  · intro e h
    unfold has_selector
    simp only [h]
    by_cases hc : e.cls = ExcClass.ExpectationNotMet
    · rw [hc]
      simp [ExcClass.isSubclassOf, ExcClass.base]
    · have : e.cls.isSubclassOf ExcClass.ExpectationNotMet = false := by
        cases hs : e.cls.isSubclassOf ExcClass.ExpectationNotMet
        · rfl
        · exact absurd ((subclass_expectation_iff e.cls).mp hs) hc
      simp [this, hc]

/-- Witness for C1 at a concrete scope with no css match: the raised
ExpectationNotMet is converted to False. -/
theorem has_selector_converts_only_expectation_witness :
    has_selector demo_scope bar_args = Except.ok false := by
  have h : assert_selector demo_scope bar_args =
      Except.error ⟨ExcClass.ExpectationNotMet,
        selector_failure_message "css" "a#bar" 0⟩ := rfl
  exact ((has_selector_converts_only_expectation demo_scope bar_args).2 _ h).1.mpr rfl

/-- When the query resolves to the same empty Result Set on every attempt,
assert_selector re-raises the ExpectationNotMet carrying its failure
message. -/
theorem assert_selector_empty_aux (self : Scope) (a : SelectorArgs)
    (q : SelectorQuery) (rs : Result)
    (hq : SelectorQuery.init a = Except.ok q)
    (hr : ∀ n, q.resolve_for self n = Except.ok rs)
    (hlen : rs.elements.length = 0) :
    assert_selector self a =
      Except.error ⟨ExcClass.ExpectationNotMet, rs.failure_message⟩ := by
  unfold assert_selector
  simp only [hq]
  refine synchronize_const_error _ _ (fun n => ?_) self.wait 0
  simp only [hr n]
  simp [hlen]

/-- When the query resolves to a nonempty Result Set on the first attempt,
assert_selector returns True. -/
theorem assert_selector_nonempty_aux (self : Scope) (a : SelectorArgs)
    (q : SelectorQuery) (rs : Result)
    (hq : SelectorQuery.init a = Except.ok q)
    (hr : q.resolve_for self 0 = Except.ok rs)
    (hlen : rs.elements.length ≠ 0) :
    assert_selector self a = Except.ok true := by
  unfold assert_selector
  simp only [hq]
  refine synchronize_ok _ _ _ _ ?_
  simp only [hr]
  simp [hlen]

/-- Claim C2: assert_selector builds a SelectorQuery from its arguments,
resolves it against the current node inside the synchronization wrapper,
raises ExpectationNotMet carrying exactly the resolved Result Set's
failure_message when the Result Set is empty, and returns True otherwise:
it raises on the empty case and only on the empty case. -/
theorem assert_selector_raises_iff_empty (self : Scope) (a : SelectorArgs)
    (q : SelectorQuery) (rs : Result)
    (hq : SelectorQuery.init a = Except.ok q)
    (hr : ∀ n, q.resolve_for self n = Except.ok rs) :
    (rs.elements.length = 0 →
      assert_selector self a =
        Except.error ⟨ExcClass.ExpectationNotMet, rs.failure_message⟩) ∧
    (rs.elements.length ≠ 0 → assert_selector self a = Except.ok true) :=
  ⟨fun hlen => assert_selector_empty_aux self a q rs hq hr hlen,
   fun hlen => assert_selector_nonempty_aux self a q rs hq (hr 0) hlen⟩

/-- Witness for C2 at the concrete scope: the link query resolves to one
element, so assert_selector returns True. -/
theorem assert_selector_raises_iff_empty_witness :
    assert_selector demo_scope ⟨["link", "foo"], []⟩ = Except.ok true := by
  refine (assert_selector_raises_iff_empty demo_scope ⟨["link", "foo"], []⟩
    ⟨"link", "foo", []⟩
    ⟨[demo_link], selector_failure_message "link" "foo" 1⟩ rfl (fun n => rfl)).2 ?_
  decide

/-- Claim C3: assert_text raises ExpectationNotMet carrying the text query's
failure message when the resolved match state is falsy and returns True
when it is truthy, and has_text converts exactly an ExpectationNotMet
raised by assert_text into False while every other exception propagates. -/
theorem assert_text_has_text_pattern (self : Scope) (a : TextArgs) :
    (∀ q actual, TextQuery.init a = Except.ok q →
      (∀ n, q.resolve_for self n = Except.ok (false, actual)) →
      assert_text self a =
        Except.error ⟨ExcClass.ExpectationNotMet, q.failure_message actual⟩) ∧
    (∀ q actual, TextQuery.init a = Except.ok q →
      q.resolve_for self 0 = Except.ok (true, actual) →
      assert_text self a = Except.ok true) ∧
    (∀ v, assert_text self a = Except.ok v → has_text self a = Except.ok v) ∧
    (∀ e, assert_text self a = Except.error e →
      (has_text self a = Except.ok false ↔ e.cls = ExcClass.ExpectationNotMet) ∧
      (e.cls ≠ ExcClass.ExpectationNotMet →
        has_text self a = Except.error e)) := by
  refine ⟨?_, ?_, ?_, ?_⟩
  · intro q actual hq hr
    unfold assert_text
    simp only [hq]
    refine synchronize_const_error _ _ (fun n => ?_) self.wait 0
    simp only [hr n]
    simp
  · intro q actual hq hr
    unfold assert_text
    simp only [hq]
    refine synchronize_ok _ _ _ _ ?_
    simp only [hr]
    simp
  · intro v h
    unfold has_text
    simp only [h]
  · intro e h
    unfold has_text
    simp only [h]
    by_cases hc : e.cls = ExcClass.ExpectationNotMet
    · rw [hc]
      simp [ExcClass.isSubclassOf, ExcClass.base]
    · have : e.cls.isSubclassOf ExcClass.ExpectationNotMet = false := by
        cases hs : e.cls.isSubclassOf ExcClass.ExpectationNotMet
        · rfl
        · exact absurd ((subclass_expectation_iff e.cls).mp hs) hc
      simp [this, hc]

/-- Witness for C3 at the concrete scope: its raw text "a newline b"
normalizes to "a b", which contains the normalized expected text "a  b",
so assert_text returns True and has_text returns it. -/
theorem assert_text_has_text_pattern_witness :
    has_text demo_scope ⟨["a  b"], false⟩ = Except.ok true := by
  have hc := assert_text_has_text_pattern demo_scope ⟨["a  b"], false⟩
  exact hc.2.2.1 true (hc.2.1 ⟨"a  b", false⟩ "a b" rfl rfl)

/-- Claim C4: Ambiguous and ExpectationNotMet are both specializations of
ElementNotFound, so a handler catching the ElementNotFound family catches
every value of either class, and the two specializations are distinct. -/
theorem ambiguous_expectation_specialize_elementnotfound :
    ExcClass.Ambiguous.isSubclassOf ExcClass.ElementNotFound = true ∧
    ExcClass.ExpectationNotMet.isSubclassOf ExcClass.ElementNotFound = true ∧
    ExcClass.Ambiguous ≠ ExcClass.ExpectationNotMet ∧
    (∀ e : Exc,
      e.cls = ExcClass.Ambiguous ∨ e.cls = ExcClass.ExpectationNotMet →
      e.cls.isSubclassOf ExcClass.ElementNotFound = true) := by
  refine ⟨rfl, rfl, by decide, ?_⟩
  intro e h
  rcases h with h | h <;> rw [h] <;> rfl

/-- Witness for C4: a concrete Ambiguous exception is caught by an
ElementNotFound handler. -/
theorem ambiguous_expectation_specialize_elementnotfound_witness :
    (Exc.mk ExcClass.Ambiguous "2 matches").cls.isSubclassOf
      ExcClass.ElementNotFound = true :=
  ambiguous_expectation_specialize_elementnotfound.2.2.2
    ⟨ExcClass.Ambiguous, "2 matches"⟩ (Or.inl rfl)

/-- Claim C5: has_css delegates to has_selector with kind "css" and
has_xpath delegates to has_selector with kind "xpath": for every scope,
expression and keyword arguments the results are identical. -/
theorem has_css_has_xpath_delegate (self : Scope) (expr : String)
    (kwargs : List (String × String)) :
    has_css self expr kwargs = has_selector self ⟨["css", expr], kwargs⟩ ∧
    has_xpath self expr kwargs = has_selector self ⟨["xpath", expr], kwargs⟩ :=
  ⟨rfl, rfl⟩

/-- Claim C6: has_button and has_link are pure convenience forms fixing the
selector kind: for every scope, locator and keyword arguments they equal
has_selector at kind "button" and "link" respectively. -/
theorem has_button_has_link_delegate (self : Scope) (locator : String)
    (kwargs : List (String × String)) :
    has_button self locator kwargs =
      has_selector self ⟨["button", locator], kwargs⟩ ∧
    has_link self locator kwargs =
      has_selector self ⟨["link", locator], kwargs⟩ :=
  ⟨rfl, rfl⟩

/-- Claim C7: has_content is an alias of has_text: the two are the same
operation, returning identical results on every scope and argument list. -/
theorem has_content_is_has_text :
    has_content = has_text :=
  rfl

/-- Claim C8: a failure raised while the query object is being constructed
from the arguments surfaces to the caller unchanged for every scope —
independent of the scope's wait budget and probe behaviour, so before any
synchronized probe runs — is not caught by has_selector when outside the
ExpectationNotMet family, and a probe failure outside the ElementNotFound
family propagates from the synchronization wrapper without consuming any
of the wait budget. -/
theorem construction_failure_surfaces_immediately :
    (∀ (a : SelectorArgs) (e : Exc), SelectorQuery.init a = Except.error e →
      ∀ self : Scope, assert_selector self a = Except.error e) ∧
    (∀ (a : SelectorArgs) (e : Exc), SelectorQuery.init a = Except.error e →
      e.cls.isSubclassOf ExcClass.ExpectationNotMet = false →
      ∀ self : Scope, has_selector self a = Except.error e) ∧
    (∀ (a : TextArgs) (e : Exc), TextQuery.init a = Except.error e →
      ∀ self : Scope, assert_text self a = Except.error e) ∧
    (∀ (w : Nat) (probe : Nat → Except Exc Bool) (e : Exc),
      e.cls.isSubclassOf ExcClass.ElementNotFound = false →
      probe 0 = Except.error e → synchronize w probe 0 = Except.error e) := by
  have h1 : ∀ (a : SelectorArgs) (e : Exc), SelectorQuery.init a = Except.error e →
      ∀ self : Scope, assert_selector self a = Except.error e := by
    intro a e h self
    unfold assert_selector
    simp only [h]
  refine ⟨h1, ?_, ?_, ?_⟩
  · intro a e h hf self
    unfold has_selector
    simp only [h1 a e h self]
    simp [hf]
  · intro a e h self
    unfold assert_text
    simp only [h]
  · intro w probe e hf h
    exact synchronize_fatal w probe 0 e h hf

/-- Witness for C8: an empty argument list makes query construction fail,
and has_selector lets the error out unchanged on the concrete scope. -/
theorem construction_failure_surfaces_immediately_witness :
    has_selector demo_scope ⟨[], []⟩ =
      Except.error ⟨ExcClass.OtherError, "invalid selector arguments"⟩ :=
  construction_failure_surfaces_immediately.2.1 ⟨[], []⟩
    ⟨ExcClass.OtherError, "invalid selector arguments"⟩ rfl rfl demo_scope

/-- Claim C9: for every selector specification and scope in which zero
elements match it (on every attempt), has_selector returns False and
assert_selector raises ExpectationNotMet whose message mentions the
specification's selector kind and locator text. -/
theorem has_selector_false_on_zero_matches (self : Scope) (a : SelectorArgs)
    (q : SelectorQuery)
    (hq : SelectorQuery.init a = Except.ok q)
    (hzero : ∀ n, ∃ cs, self.find_all q.kind q.locator n = Except.ok cs ∧
        cs.filter q.keeps = []) :
    has_selector self a = Except.ok false ∧
    ∃ e, assert_selector self a = Except.error e ∧
      e.cls = ExcClass.ExpectationNotMet ∧
      mentions e.msg q.kind ∧ mentions e.msg q.locator := by
  have hres : ∀ n, q.resolve_for self n =
      Except.ok ⟨[], selector_failure_message q.kind q.locator 0⟩ := by
    intro n
    obtain ⟨cs, hcs, hf⟩ := hzero n
    unfold SelectorQuery.resolve_for
    simp only [hcs]
    simp [hf]
  have hassert : assert_selector self a =
      Except.error ⟨ExcClass.ExpectationNotMet,
        selector_failure_message q.kind q.locator 0⟩ :=
    assert_selector_empty_aux self a q
      ⟨[], selector_failure_message q.kind q.locator 0⟩ hq hres rfl
  refine ⟨?_, ⟨ExcClass.ExpectationNotMet,
      selector_failure_message q.kind q.locator 0⟩, hassert, rfl, ?_, ?_⟩
  · unfold has_selector
    simp only [hassert]
    rfl
  · refine ⟨"expected to find element matching ",
      " \x22" ++ (q.locator ++ ("\x22, found " ++ toString 0)), ?_⟩
    simp only [selector_failure_message, string_append_assoc]
  · refine ⟨"expected to find element matching " ++ (q.kind ++ " \x22"),
      "\x22, found " ++ toString 0, ?_⟩
    simp only [selector_failure_message, string_append_assoc]

/-- Witness for C9: the concrete scope holds no element matching the css
locator "a#bar", so has_selector is False and the raised message mentions
both the kind and the locator. -/
theorem has_selector_false_on_zero_matches_witness :
    has_selector demo_scope bar_args = Except.ok false ∧
    ∃ e, assert_selector demo_scope bar_args = Except.error e ∧
      e.cls = ExcClass.ExpectationNotMet ∧
      mentions e.msg "css" ∧ mentions e.msg "a#bar" :=
  has_selector_false_on_zero_matches demo_scope bar_args
    ⟨"css", "a#bar", []⟩ rfl (fun _ => ⟨[], rfl, rfl⟩)

/-- Claim C10: ModalNotFound, FileNotFound, UnselectNotAllowed, ScopeError
and WindowError subclass CapybaraError but sit outside the ElementNotFound
family, so an occurrence of any of them during resolution propagates out
of has_selector and has_text instead of being converted to False. -/
theorem other_capybara_errors_propagate :
    (∀ c : ExcClass,
      c = ExcClass.ModalNotFound ∨ c = ExcClass.FileNotFound ∨
      c = ExcClass.UnselectNotAllowed ∨ c = ExcClass.ScopeError ∨
      c = ExcClass.WindowError →
      c.isSubclassOf ExcClass.CapybaraError = true ∧
      c.isSubclassOf ExcClass.ElementNotFound = false) ∧
    (∀ (self : Scope) (a : SelectorArgs) (q : SelectorQuery) (e : Exc),
      SelectorQuery.init a = Except.ok q →
      e.cls.isSubclassOf ExcClass.ElementNotFound = false →
      self.find_all q.kind q.locator 0 = Except.error e →
      assert_selector self a = Except.error e ∧
      has_selector self a = Except.error e) ∧
    (∀ (self : Scope) (a : TextArgs) (q : TextQuery) (e : Exc),
      TextQuery.init a = Except.ok q →
      e.cls.isSubclassOf ExcClass.ElementNotFound = false →
      self.text 0 = Except.error e →
      assert_text self a = Except.error e ∧
      has_text self a = Except.error e) := by
  refine ⟨?_, ?_, ?_⟩
  · intro c h
    rcases h with h | h | h | h | h <;> rw [h] <;> exact ⟨rfl, rfl⟩
  · intro self a q e hq hf hfind
    have hres : q.resolve_for self 0 = Except.error e := by
      unfold SelectorQuery.resolve_for
      simp only [hfind]
    have hassert : assert_selector self a = Except.error e := by
      unfold assert_selector
      simp only [hq]
      refine synchronize_fatal self.wait _ 0 e ?_ hf
      simp only [hres]
    refine ⟨hassert, ?_⟩
    unfold has_selector
    simp only [hassert]
    simp [not_elementnotfound_not_expectation e.cls hf]
  · intro self a q e hq hf htext
    have hres : q.resolve_for self 0 = Except.error e := by
      unfold TextQuery.resolve_for
      simp only [htext]
    have hassert : assert_text self a = Except.error e := by
      unfold assert_text
      simp only [hq]
      refine synchronize_fatal self.wait _ 0 e ?_ hf
      simp only [hres]
    refine ⟨hassert, ?_⟩
    unfold has_text
    simp only [hassert]
    simp [not_elementnotfound_not_expectation e.cls hf]

/-- Witness for C10: a driver that raises ModalNotFound makes has_selector
propagate that exception unchanged. -/
theorem other_capybara_errors_propagate_witness :
    has_selector (failing_scope ⟨ExcClass.ModalNotFound, "no modal"⟩) bar_args =
      Except.error ⟨ExcClass.ModalNotFound, "no modal"⟩ :=
  (other_capybara_errors_propagate.2.1
    (failing_scope ⟨ExcClass.ModalNotFound, "no modal"⟩) bar_args
    ⟨"css", "a#bar", []⟩ ⟨ExcClass.ModalNotFound, "no modal"⟩
    rfl rfl rfl).2

end Capybara
